import Mathlib

set_option autoImplicit false

/-!
Verification of the chat-orchestration layer: a shallow embedding of
server/chat/chat.py and webui_pages/dialogue/dialogue.py, with theorems
about chain selection, memory construction, event forwarding, tool
selection, callback threading and the UI command parser.
-/

namespace Chatchat

/-- JSON-like values appearing in streamed events and configs. -/
inductive JValue where
  | null
  | str (s : String)
  | num (n : Int)
  deriving DecidableEq, Repr

/-- Python dict assignment d[k] = v on an association list: replaces the
binding in place when the key is present, appends otherwise. -/
def dictSet {β : Type} : List (String × β) → String → β → List (String × β)
  | [], k, v => [(k, v)]
  | (k1, v1) :: rest, k, v =>
      if k1 = k then (k, v) :: rest else (k1, v1) :: dictSet rest k v

/-- Python dict lookup d.get(k): first binding for the key, if any. -/
def dictGet {β : Type} : List (String × β) → String → Option β
  | [], _ => none
  | (k1, v1) :: rest, k => if k1 = k then some v1 else dictGet rest k

/-- Whether the first list of characters is a prefix of the second. -/
def charsPrefix : List Char → List Char → Bool
  | [], _ => true
  | _ :: _, [] => false
  | p :: ps, a :: as => p = a && charsPrefix ps as

/-- Whether the pattern occurs as a contiguous run inside the haystack. -/
def charsContains (pat : List Char) : List Char → Bool
  | [] => charsPrefix pat []
  | a :: as => charsPrefix pat (a :: as) || charsContains pat as

/-- Python substring test: needle in hay. -/
def strContains (hay needle : String) : Bool :=
  charsContains needle.data hay.data

/-- ASCII lowercasing of one character (Python str.lower on the model
names occurring here). -/
def charLower (c : Char) : Char :=
  if 'A' ≤ c ∧ c ≤ 'Z' then Char.ofNat (c.toNat + 32) else c

/-- ASCII lowercasing of a string. -/
def strLower (s : String) : String :=
  String.mk (s.data.map charLower)

/-- The three agent-executor constructions reachable from
create_models_chains. -/
inductive AgentKind where
  | glm3
  | qwen
  | structuredChatZeroShot
  deriving DecidableEq, Repr

/-- The chain object returned by create_models_chains: either an agent
executor built over the tools, or the plain LLM chain. -/
inductive FullChain where
  | agentExecutor (kind : AgentKind)
  | llmChain
  deriving DecidableEq, Repr

/-- Agent/chain selection in create_models_chains (chat.py lines 80-117):
models maps each model role to the model_name of its instance, tools is the
selected tool list.  Mirrors
if "action_model" in models and tools: three substring branches on
models["action_model"].model_name.lower(); else the plain LLM chain. -/
def create_models_chains_select (models : List (String × String))
    (tools : List String) : FullChain :=
  if (dictGet models "action_model").isSome && !tools.isEmpty then
    let name := (dictGet models "action_model").getD ""
    if strContains (strLower name) "chatglm3" then .agentExecutor .glm3
    else if strContains (strLower name) "qwen" then .agentExecutor .qwen
    else .agentExecutor .structuredChatZeroShot
  else .llmChain

/-- A role/content message, as carried in the request history. -/
structure HistoryMsg where
  role : String
  content : String
  deriving DecidableEq, Repr

/-- The chat prompt built by create_models_chains: the (possibly empty)
history messages followed by the input message template. -/
inductive ChatPrompt where
  | fromMessages (history : List HistoryMsg) (inputTemplate : String)
  deriving DecidableEq, Repr

/-- The database-backed memory object, recording the constructor arguments
used in create_models_chains. -/
structure ConversationBufferDBMemory where
  conversation_id : String
  message_limit : Int
  deriving DecidableEq, Repr

/-- The chat endpoint's history argument: Union of int and List (History). -/
inductive PyHistory where
  | ofInt (n : Int)
  | ofList (l : List HistoryMsg)
  deriving DecidableEq, Repr

/-- Python truthiness of the history argument. -/
def PyHistory.truthy : PyHistory → Bool
  | .ofInt n => n != 0
  | .ofList l => !l.isEmpty

/-- Prompt/memory construction in create_models_chains (chat.py lines
49-73).  Mirrors: if history (truthy): the list comprehension over history
builds the prompt from the history messages plus the input message, which
raises TypeError when history is an integer; elif conversation_id and
history_len larger than 0: a ConversationBufferDBMemory with
message_limit=history_len; else: prompt from the input message only.
llm_prompt stands for the looked-up template prompts["llm_model"]. -/
def create_models_chains_prompt_memory (history : PyHistory)
    (history_len : Int) (conversation_id : String) (llm_prompt : String) :
    Except String (Option ChatPrompt × Option ConversationBufferDBMemory) :=
  if history.truthy then
    match history with
    | .ofList l => .ok (some (.fromMessages l llm_prompt), none)
    | .ofInt _ => .error "TypeError: argument of type int is not iterable"
  else if conversation_id ≠ "" ∧ history_len > 0 then
    .ok (none, some ⟨conversation_id, history_len⟩)
  else
    .ok (some (.fromMessages [] llm_prompt), none)

/-- C1: with "action_model" present in models and a non-empty tool list,
create_models_chains picks the agent executor by substring of the
lowercased action-model name (chatglm3, then qwen, then the generic
structured-chat zero-shot agent); otherwise it uses the plain LLM chain. -/
theorem create_models_chains_select_spec (models : List (String × String))
    (tools : List String) :
    (∀ name, dictGet models "action_model" = some name → tools ≠ [] →
      create_models_chains_select models tools =
        (if strContains (strLower name) "chatglm3" then
          FullChain.agentExecutor AgentKind.glm3
        else if strContains (strLower name) "qwen" then
          FullChain.agentExecutor AgentKind.qwen
        else FullChain.agentExecutor AgentKind.structuredChatZeroShot)) ∧
    ((dictGet models "action_model" = none ∨ tools = []) →
      create_models_chains_select models tools = FullChain.llmChain) := by
  constructor
  · intro name hm ht
    cases tools with
    | nil => exact absurd rfl ht
    | cons t ts => simp [create_models_chains_select, hm]
  · intro h
    rcases h with hm | ht
    · simp [create_models_chains_select, hm]
    · subst ht
      simp [create_models_chains_select]

/-- Witness for C1 at concrete inputs. -/
theorem create_models_chains_select_spec_witness :
    create_models_chains_select [("action_model", "ChatGLM3-6B")] ["calc"] =
      FullChain.agentExecutor AgentKind.glm3 ∧
    create_models_chains_select [("llm_model", "gpt-4")] ["calc"] =
      FullChain.llmChain := by
  constructor
  · have h :=
      (create_models_chains_select_spec [("action_model", "ChatGLM3-6B")]
        ["calc"]).1 "ChatGLM3-6B" (by decide) (by decide)
    exact h.trans (by decide)
  · exact (create_models_chains_select_spec [("llm_model", "gpt-4")]
      ["calc"]).2 (Or.inl (by decide))

/-- C2: the history branch takes precedence: with non-empty history the
prompt is the history messages followed by the input message and no
database memory is created, whatever conversation_id and history_len are;
the database memory (limited to history_len messages) is created exactly
when history is empty, conversation_id is non-empty and history_len is
positive; otherwise the prompt holds only the input message and memory is
None. -/
theorem create_models_chains_prompt_memory_spec (history : List HistoryMsg)
    (history_len : Int) (conversation_id : String) (llm_prompt : String) :
    (history ≠ [] →
      create_models_chains_prompt_memory (.ofList history) history_len
          conversation_id llm_prompt =
        .ok (some (.fromMessages history llm_prompt), none)) ∧
    (history = [] → conversation_id ≠ "" → history_len > 0 →
      create_models_chains_prompt_memory (.ofList history) history_len
          conversation_id llm_prompt =
        .ok (none, some ⟨conversation_id, history_len⟩)) ∧
    (history = [] → (conversation_id = "" ∨ ¬ history_len > 0) →
      create_models_chains_prompt_memory (.ofList history) history_len
          conversation_id llm_prompt =
        .ok (some (.fromMessages [] llm_prompt), none)) := by
  refine ⟨?_, ?_, ?_⟩
  · intro h
    simp [create_models_chains_prompt_memory, PyHistory.truthy,
      List.isEmpty_iff, h]
  · intro h hc hl
    subst h
    simp [create_models_chains_prompt_memory, PyHistory.truthy, hc, hl]
  · intro h hrest
    subst h
    rcases hrest with hc | hl
    · simp [create_models_chains_prompt_memory, PyHistory.truthy, hc]
    · simp [create_models_chains_prompt_memory, PyHistory.truthy, hl]

/-- Witness for C2 at concrete inputs: history wins over the database
memory, the memory branch fires when history is empty, and the bare branch
otherwise. -/
theorem create_models_chains_prompt_memory_spec_witness :
    create_models_chains_prompt_memory
        (.ofList [⟨"user", "hi"⟩]) 5 "conv1" "tmpl" =
      .ok (some (.fromMessages [⟨"user", "hi"⟩] "tmpl"), none) ∧
    create_models_chains_prompt_memory (.ofList []) 5 "conv1" "tmpl" =
      .ok (none, some ⟨"conv1", 5⟩) ∧
    create_models_chains_prompt_memory (.ofList []) (-1) "conv1" "tmpl" =
      .ok (some (.fromMessages [] "tmpl"), none) := by
  refine ⟨?_, ?_, ?_⟩
  · exact (create_models_chains_prompt_memory_spec [⟨"user", "hi"⟩] 5
      "conv1" "tmpl").1 (by decide)
  · exact (create_models_chains_prompt_memory_spec [] 5
      "conv1" "tmpl").2.1 rfl (by decide) (by decide)
  · exact (create_models_chains_prompt_memory_spec [] (-1)
      "conv1" "tmpl").2.2 rfl (Or.inr (by decide))

/-- A streamed event: one parsed JSON object, as a Python dict. -/
abbrev Event := List (String × JValue)

/-- Event forwarding in chat_iterator (chat.py lines 139-175): message_id
is the id returned by add_message_to_db (db_id) when conversation_id is
non-empty, None otherwise; each chunk drained from the callback iterator is
parsed and re-emitted with data["message_id"] = message_id. -/
def chat_iterator_events (conversation_id : String) (db_id : JValue)
    (events : List Event) : List Event :=
  events.map (fun data => dictSet data "message_id"
    (if conversation_id ≠ "" then db_id else JValue.null))

/-- The media type of the StreamingResponse returned by the chat endpoint. -/
def chat_media_type : String := "text/event-stream"

/-- dictSet stores the assigned value under the assigned key. -/
theorem dictGet_dictSet_same {β : Type} (l : List (String × β)) (k : String)
    (v : β) : dictGet (dictSet l k v) k = some v := by
  induction l with
  | nil => simp [dictSet, dictGet]
  | cons p rest ih =>
      obtain ⟨k1, v1⟩ := p
      by_cases h : k1 = k <;> simp [dictSet, dictGet, h, ih]

/-- dictSet leaves every other key unchanged. -/
theorem dictGet_dictSet_other {β : Type} (l : List (String × β))
    (k k2 : String) (v : β) (h : k2 ≠ k) :
    dictGet (dictSet l k v) k2 = dictGet l k2 := by
  induction l with
  | nil => simp [dictSet, dictGet, Ne.symm h]
  | cons p rest ih =>
      obtain ⟨k1, v1⟩ := p
      by_cases h1 : k1 = k
      · subst h1
        simp [dictSet, dictGet, Ne.symm h]
      · by_cases h2 : k1 = k2 <;> simp [dictSet, dictGet, h, h1, h2, ih]

/-- dictSet changes the key list only by appending the key when absent. -/
theorem dictSet_keys {β : Type} (l : List (String × β)) (k : String)
    (v : β) :
    (dictSet l k v).map Prod.fst =
      (if k ∈ l.map Prod.fst then l.map Prod.fst
       else l.map Prod.fst ++ [k]) := by
  induction l with
  | nil => simp [dictSet]
  | cons p rest ih =>
      obtain ⟨k1, v1⟩ := p
      by_cases h : k1 = k
      · subst h
        simp [dictSet]
      · by_cases h2 : k ∈ rest.map Prod.fst <;>
          simp [dictSet, h, Ne.symm h, h2, ih]

/-- The registry entry of a tool: what tool selection inspects. -/
structure Tool where
  name : String
  deriving DecidableEq, Repr

/-- Tool selection in chat_iterator (chat.py line 152): the registered
tools whose name occurs among the keys of the request's tool_config,
kept in registry order. -/
def select_tools (all_tools : List Tool)
    (tool_config : List (String × JValue)) : List Tool :=
  all_tools.filter (fun tool => (tool_config.map Prod.fst).contains tool.name)

/-- One step of the chat_iterator coroutine, as recorded in its trace. -/
inductive ChatOp where
  | createTask
  | forwardEvent (e : Event)
  | awaitTask
  deriving DecidableEq, Repr

/-- The operation trace of chat_iterator (chat.py lines 165-175): one
asyncio task is created running full_chain.ainvoke wrapped with the
callback's done signal, then every chunk drained from the callback
iterator is forwarded as one event, then the task is awaited. -/
def chat_iterator_trace (conversation_id : String) (db_id : JValue)
    (events : List Event) : List ChatOp :=
  [ChatOp.createTask] ++
    (chat_iterator_events conversation_id db_id events).map
      ChatOp.forwardEvent ++
  [ChatOp.awaitTask]

/-- The params mapping of one model entry in model_config, as consumed by
create_models_from_config: the truthiness of params.get of callbacks, the
resolved temperature and max_tokens values (passed through unchanged), and
the resolved prompt_name. -/
structure ModelParams where
  callbacks_flag : Bool
  temperature : JValue
  max_tokens : JValue
  prompt_name : String
  deriving DecidableEq, Repr

/-- The arguments of one get_ChatOpenAI call made by
create_models_from_config. -/
structure ModelInstance (α : Type) where
  model_name : String
  temperature : JValue
  max_tokens : JValue
  callbacks : Option α
  streaming : Bool
  deriving DecidableEq, Repr

/-- Inner loop of create_models_from_config (chat.py lines 32-44) over the
model_name/params items of one model_type: threads the callbacks variable
(reassigned to None whenever the current params lack a truthy callbacks
entry), constructs each model, and updates the models and prompts dicts.
Returns the threaded callbacks value, the two dicts, and the constructed
instances in call order. -/
def create_models_inner {α : Type} (model_type : String) :
    List (String × ModelParams) → Option α → Bool →
    List (String × ModelInstance α) → List (String × String) →
    Option α × List (String × ModelInstance α) × List (String × String) ×
      List (ModelInstance α)
  | [], callbacks, _, models, prompts => (callbacks, models, prompts, [])
  | (model_name, params) :: rest, callbacks, stream, models, prompts =>
      let callbacks := if params.callbacks_flag then callbacks else none
      let model_instance : ModelInstance α :=
        ⟨model_name, params.temperature, params.max_tokens, callbacks,
          stream⟩
      let models := dictSet models model_type model_instance
      let prompts := dictSet prompts model_type params.prompt_name
      let r := create_models_inner model_type rest callbacks stream models
        prompts
      (r.1, r.2.1, r.2.2.1, model_instance :: r.2.2.2)

/-- Outer loop of create_models_from_config over the model_type items of
the configs dict. -/
def create_models_outer {α : Type} :
    List (String × List (String × ModelParams)) → Option α → Bool →
    List (String × ModelInstance α) → List (String × String) →
    Option α × List (String × ModelInstance α) × List (String × String) ×
      List (ModelInstance α)
  | [], callbacks, _, models, prompts => (callbacks, models, prompts, [])
  | (model_type, model_configs) :: rest, callbacks, stream, models,
      prompts =>
      let r1 := create_models_inner model_type model_configs callbacks
        stream models prompts
      let r2 := create_models_outer rest r1.1 stream r1.2.1 r1.2.2.1
      (r2.1, r2.2.1, r2.2.2.1, r1.2.2.2 ++ r2.2.2.2)

/-- create_models_from_config (chat.py lines 26-45): a None configs is
replaced by the empty dict and both result dicts start empty. -/
def create_models_from_config {α : Type}
    (configs : Option (List (String × List (String × ModelParams))))
    (callbacks : Option α) (stream : Bool) :
    List (String × ModelInstance α) × List (String × String) :=
  let r := create_models_outer (configs.getD []) callbacks stream [] []
  (r.2.1, r.2.2.1)

/-- The get_ChatOpenAI calls made by create_models_from_config, in
execution order. -/
def create_models_calls {α : Type}
    (configs : Option (List (String × List (String × ModelParams))))
    (callbacks : Option α) (stream : Bool) : List (ModelInstance α) :=
  (create_models_outer (configs.getD []) callbacks stream [] []).2.2.2

/-- The model entries of a configs dict in processing order: outer loop
over model types, inner loop over model names. -/
def flattenConfigs :
    List (String × List (String × ModelParams)) →
    List (String × ModelParams)
  | [] => []
  | (_, model_configs) :: rest => model_configs ++ flattenConfigs rest

/-- The constructed instances of the loop, written against the flattened
entry list. -/
def callsFlat {α : Type} :
    List (String × ModelParams) → Option α → Bool → List (ModelInstance α)
  | [], _, _ => []
  | (model_name, params) :: rest, callbacks, stream =>
      let callbacks := if params.callbacks_flag then callbacks else none
      ⟨model_name, params.temperature, params.max_tokens, callbacks,
        stream⟩ :: callsFlat rest callbacks stream

/-- The callbacks value threaded out of a run of the loop body over the
given entries. -/
def cbsAfter {α : Type} :
    List (String × ModelParams) → Option α → Option α
  | [], callbacks => callbacks
  | (_, params) :: rest, callbacks =>
      cbsAfter rest (if params.callbacks_flag then callbacks else none)

/-- C4: evaluating the embedded create_models_chains at an integer history
(here 5): the truthy integer reaches the list comprehension over history,
which raises TypeError instead of succeeding. -/
theorem chat_integer_history_raises :
    create_models_chains_prompt_memory (.ofInt 5) (-1) "" "tmpl" =
      .error "TypeError: argument of type int is not iterable" := by
  rfl

/-- C3: every event is re-emitted with exactly the message_id field added
or overwritten: at each position the output is dictSet of the input at
"message_id", whose value is the database id when conversation_id is
non-empty and null otherwise; every other field reads back unchanged, the
key list grows by at most the one key, and the response media type is
text/event-stream. -/
theorem chat_iterator_events_spec (conversation_id : String)
    (db_id : JValue) (events : List Event) :
    (∀ i e, events.get? i = some e →
      (chat_iterator_events conversation_id db_id events).get? i =
        some (dictSet e "message_id"
          (if conversation_id ≠ "" then db_id else JValue.null)) ∧
      dictGet (dictSet e "message_id"
          (if conversation_id ≠ "" then db_id else JValue.null))
          "message_id" =
        some (if conversation_id ≠ "" then db_id else JValue.null) ∧
      (∀ k, k ≠ "message_id" →
        dictGet (dictSet e "message_id"
          (if conversation_id ≠ "" then db_id else JValue.null)) k =
          dictGet e k) ∧
      (dictSet e "message_id"
          (if conversation_id ≠ "" then db_id else JValue.null)).map
          Prod.fst =
        (if "message_id" ∈ e.map Prod.fst then e.map Prod.fst
         else e.map Prod.fst ++ ["message_id"])) ∧
    (chat_iterator_events conversation_id db_id events).length =
      events.length ∧
    chat_media_type = "text/event-stream" := by
  refine ⟨?_, by simp [chat_iterator_events], rfl⟩
  intro i e he
  refine ⟨?_, dictGet_dictSet_same _ _ _, fun k hk =>
    dictGet_dictSet_other _ _ _ _ hk, dictSet_keys _ _ _⟩
  simp only [chat_iterator_events, List.get?_map, he, Option.map_some']

/-- Witness for C3 at a concrete event stream. -/
theorem chat_iterator_events_spec_witness :
    (chat_iterator_events "conv1" (JValue.str "id7")
        [[("status", JValue.num 1)]]).get? 0 =
      some (dictSet [("status", JValue.num 1)] "message_id"
        (if ("conv1" : String) ≠ "" then JValue.str "id7"
         else JValue.null)) := by
  exact ((chat_iterator_events_spec "conv1" (JValue.str "id7")
    [[("status", JValue.num 1)]]).1 0 [("status", JValue.num 1)] rfl).1

/-- C7: the tool set passed into chain construction is exactly the
registered tools whose name is a key of the request's tool_config, and it
is a sublist of the registry, hence in registry order; nothing outside the
registry occurs. -/
theorem select_tools_spec (all_tools : List Tool)
    (tool_config : List (String × JValue)) :
    (∀ t, t ∈ select_tools all_tools tool_config ↔
      t ∈ all_tools ∧ t.name ∈ tool_config.map Prod.fst) ∧
    (select_tools all_tools tool_config).Sublist all_tools := by
  refine ⟨fun t => ?_, List.filter_sublist _⟩
  simp [select_tools, List.mem_filter]

/-- C8: the chat_iterator trace creates exactly one producing task, as its
very first operation; it forwards one event per drained item; and it
awaits the task exactly once, as its very last operation, after the
iterator is exhausted. -/
theorem chat_iterator_trace_spec (conversation_id : String)
    (db_id : JValue) (events : List Event) :
    (chat_iterator_trace conversation_id db_id events).count
      ChatOp.createTask = 1 ∧
    (chat_iterator_trace conversation_id db_id events).head? =
      some ChatOp.createTask ∧
    (chat_iterator_trace conversation_id db_id events).count
      ChatOp.awaitTask = 1 ∧
    (chat_iterator_trace conversation_id db_id events).getLast? =
      some ChatOp.awaitTask ∧
    ((chat_iterator_trace conversation_id db_id events).filter
      (fun op => match op with
        | ChatOp.forwardEvent _ => true
        | _ => false)).length = events.length := by
  refine ⟨?_, ?_, ?_, ?_, ?_⟩
  · simp [chat_iterator_trace, List.count_append, List.count_eq_zero,
      List.mem_map]
  · simp [chat_iterator_trace]
  · simp [chat_iterator_trace, List.count_append, List.count_eq_zero,
      List.mem_map]
  · rw [chat_iterator_trace, List.getLast?_concat]
  · simp [chat_iterator_trace, List.filter_append, List.filter_map,
      chat_iterator_events, Function.comp]

theorem create_models_inner_fst {α : Type} (model_type : String)
    (entries : List (String × ModelParams)) (callbacks : Option α)
    (stream : Bool) (models : List (String × ModelInstance α))
    (prompts : List (String × String)) :
    (create_models_inner model_type entries callbacks stream models
      prompts).1 = cbsAfter entries callbacks := by
  induction entries generalizing callbacks models prompts with
  | nil => rfl
  | cons e rest ih =>
      obtain ⟨model_name, params⟩ := e
      simp [create_models_inner, cbsAfter, ih]

theorem create_models_inner_calls {α : Type} (model_type : String)
    (entries : List (String × ModelParams)) (callbacks : Option α)
    (stream : Bool) (models : List (String × ModelInstance α))
    (prompts : List (String × String)) :
    (create_models_inner model_type entries callbacks stream models
      prompts).2.2.2 = callsFlat entries callbacks stream := by
  induction entries generalizing callbacks models prompts with
  | nil => rfl
  | cons e rest ih =>
      obtain ⟨model_name, params⟩ := e
      simp [create_models_inner, callsFlat, ih]

theorem create_models_outer_calls {α : Type}
    (configs : List (String × List (String × ModelParams)))
    (callbacks : Option α) (stream : Bool)
    (models : List (String × ModelInstance α))
    (prompts : List (String × String)) :
    (create_models_outer configs callbacks stream models prompts).2.2.2 =
      callsFlat (flattenConfigs configs) callbacks stream := by
  induction configs generalizing callbacks models prompts with
  | nil => rfl
  | cons c rest ih =>
      obtain ⟨model_type, model_configs⟩ := c
      have happ : ∀ (xs ys : List (String × ModelParams)) (cbs : Option α),
          callsFlat (xs ++ ys) cbs stream =
            callsFlat xs cbs stream ++ callsFlat ys (cbsAfter xs cbs)
              stream := by
        intro xs
        induction xs with
        | nil => intro ys cbs; rfl
        | cons x xrest xih =>
            intro ys cbs
            obtain ⟨n, p⟩ := x
            simp [callsFlat, cbsAfter, xih]
      simp [create_models_outer, flattenConfigs, ih,
        create_models_inner_fst, create_models_inner_calls, happ]

theorem callsFlat_none {α : Type} (entries : List (String × ModelParams))
    (stream : Bool) (inst : ModelInstance α)
    (hmem : inst ∈ callsFlat entries none stream) :
    inst.callbacks = none := by
  induction entries with
  | nil => simp [callsFlat] at hmem
  | cons e rest ih =>
      obtain ⟨n, p⟩ := e
      simp only [callsFlat, if_neg, List.mem_cons] at hmem
      rcases hmem with h | h
      · subst h
        cases hp : p.callbacks_flag <;> simp [hp]
      · cases hp : p.callbacks_flag <;> simp [hp] at h <;> exact ih h

theorem callsFlat_after_false {α : Type}
    (entries : List (String × ModelParams)) (callbacks : Option α)
    (stream : Bool) (i j : Nat) (tp : String × ModelParams)
    (hi : entries[i]? = some tp)
    (hflag : tp.2.callbacks_flag = false) (hij : i < j)
    (inst : ModelInstance α)
    (hj : (callsFlat entries callbacks stream)[j]? = some inst) :
    inst.callbacks = none := by
  induction entries generalizing callbacks i j with
  | nil => simp at hi
  | cons e rest ih =>
      obtain ⟨n, p⟩ := e
      cases i with
      | zero =>
          rw [List.getElem?_cons_zero] at hi
          obtain rfl : (n, p) = tp := by injection hi
          have hp : p.callbacks_flag = false := hflag
          cases j with
          | zero => omega
          | succ j1 =>
              simp only [callsFlat, hp, if_false,
                List.getElem?_cons_succ] at hj
              exact callsFlat_none rest stream inst
                (List.getElem?_mem hj)
      | succ i1 =>
          cases j with
          | zero => omega
          | succ j1 =>
              rw [List.getElem?_cons_succ] at hi
              simp only [callsFlat, List.getElem?_cons_succ] at hj
              exact ih _ i1 j1 hi (by omega) hj

/-- C9: the callbacks value of create_models_from_config is threaded
through the loop rather than reset per model: once an entry whose params
lack a truthy callbacks value has been processed (position i of the
flattened configs), every later get_ChatOpenAI call (position j greater
than i) is made with callbacks=None, whatever the later params say. -/
theorem create_models_from_config_callbacks_threaded {α : Type}
    (configs : List (String × List (String × ModelParams)))
    (callbacks : Option α) (stream : Bool) (i j : Nat)
    (tp : String × ModelParams)
    (hi : (flattenConfigs configs)[i]? = some tp)
    (hflag : tp.2.callbacks_flag = false) (hij : i < j)
    (inst : ModelInstance α)
    (hj : (create_models_calls (some configs) callbacks stream)[j]? =
      some inst) :
    inst.callbacks = none := by
  rw [create_models_calls, Option.getD_some, create_models_outer_calls]
    at hj
  exact callsFlat_after_false (flattenConfigs configs) callbacks stream
    i j tp hi hflag hij inst hj

/-- Witness for C9: with callbacks supplied, a first model whose params
lack a truthy callbacks entry and a second model whose params set it, the
second call is still made with callbacks=None. -/
theorem create_models_from_config_callbacks_threaded_witness :
    (flattenConfigs
        [("preprocess_model",
          [("m1", ⟨false, JValue.null, JValue.null, "default"⟩)]),
         ("action_model",
          [("m2", ⟨true, JValue.null, JValue.null, "default"⟩)])])[0]? =
      some ("m1", ⟨false, JValue.null, JValue.null, "default"⟩) ∧
    (create_models_calls (α := Nat)
        (some
          [("preprocess_model",
            [("m1", ⟨false, JValue.null, JValue.null, "default"⟩)]),
           ("action_model",
            [("m2", ⟨true, JValue.null, JValue.null, "default"⟩)])])
        (some 7) true)[1]? =
      some ⟨"m2", JValue.null, JValue.null, none, true⟩ ∧
    (⟨"m2", JValue.null, JValue.null, none, true⟩ :
        ModelInstance Nat).callbacks = none := by
  refine ⟨rfl, rfl, ?_⟩
  exact create_models_from_config_callbacks_threaded
    [("preprocess_model",
      [("m1", ⟨false, JValue.null, JValue.null, "default"⟩)]),
     ("action_model",
      [("m2", ⟨true, JValue.null, JValue.null, "default"⟩)])]
    (some 7) true 0 1
    ("m1", ⟨false, JValue.null, JValue.null, "default"⟩)
    rfl rfl (by omega)
    ⟨"m2", JValue.null, JValue.null, none, true⟩ rfl

/-- The UI side effects parse_command can perform besides updating the
session state.  stopSession is listed because the docstring advertises a
stop command; the dispatch never emits it. -/
inductive UIAction where
  | openModal
  | showError (msg : String)
  | clearHistory (name : Option String)
  | stopSession (name : String)
  deriving DecidableEq, Repr

/-- The slice of Streamlit session state that parse_command reads and
writes: the conversation_ids dict, the current conversation name (empty
for unset), and the chat names registered in the chat box. -/
structure UIState where
  conversation_ids : List (String × String)
  cur_conv_name : String
  conv_names : List String
  deriving DecidableEq, Repr

/-- Python str.strip: whitespace removed from both ends. -/
def charsTrim (cs : List Char) : List Char :=
  ((cs.dropWhile Char.isWhitespace).reverse.dropWhile
    Char.isWhitespace).reverse

/-- Python str.strip on a string. -/
def strTrim (s : String) : String :=
  String.mk (charsTrim s.data)

/-- The regex match at the head of parse_command: a slash, one or more
non-whitespace characters (the command), a greedy whitespace run, then
the rest of the line; the name capture is then stripped. -/
def splitCommand (text : String) : Option (String × String) :=
  match text.data with
  | [] => none
  | c :: rest =>
      if c = '/' then
        let cmdChars := rest.takeWhile (fun ch => !ch.isWhitespace)
        if cmdChars.isEmpty then none
        else
          let after := rest.dropWhile (fun ch => !ch.isWhitespace)
          let afterWs := after.dropWhile Char.isWhitespace
          let nameRaw := afterWs.takeWhile (fun ch => ch ≠ '\n')
          some (String.mk cmdChars, strTrim (String.mk nameRaw))
      else none

/-- The while loop of the new branch: the first name 会话i (i counting
from 1) not already among the chat names.  The fuel, one more than the
number of existing names, always suffices. -/
def freshNameAux (conv_names : List String) : Nat → Nat → String
  | 0, i => "会话" ++ toString i
  | fuel + 1, i =>
      let name := "会话" ++ toString i
      if conv_names.contains name then freshNameAux conv_names fuel (i + 1)
      else name

/-- The default name chosen by the new branch when none is given. -/
def freshName (conv_names : List String) : String :=
  freshNameAux conv_names (conv_names.length + 1) 1

/-- parse_command (dialogue.py lines 55-100): dispatch on the slash
command; returns whether the text was a command, the updated state, and
the UI actions performed.  new_uuid stands for the uuid4 hex value used
by the new branch. -/
def parse_command (new_uuid : String) (text : String) (s : UIState) :
    Bool × UIState × List UIAction :=
  match splitCommand text with
  | none => (false, s, [])
  | some (cmd, name0) =>
      if cmd = "help" then (true, s, [.openModal])
      else if cmd = "new" then
        let name := if name0 = "" then freshName s.conv_names else name0
        if (s.conversation_ids.map Prod.fst).contains name then
          (true, s, [.showError ("该会话名称 “" ++ name ++ "” 已存在")])
        else
          (true,
            { s with
              conversation_ids := dictSet s.conversation_ids name new_uuid,
              cur_conv_name := name }, [])
      else if cmd = "del" then
        let name := if name0 = "" then s.cur_conv_name else name0
        if s.conv_names.length = 1 then
          (true, s, [.showError "这是最后一个会话，无法删除"])
        else if name = "" ∨
            ¬ (s.conversation_ids.map Prod.fst).contains name then
          (true, s, [.showError ("无效的会话名称：“" ++ name ++ "”")])
        else
          (true,
            { s with
              conversation_ids :=
                s.conversation_ids.filter (fun p => p.1 ≠ name),
              conv_names := s.conv_names.filter (fun n => n ≠ name),
              cur_conv_name := "" }, [])
      else if cmd = "clear" then
        (true, s,
          [.clearHistory (if name0 = "" then none else some name0)])
      else (true, s, [])

/-- The AgentStatus tags dialogue_page dispatches on; other stands for
every remaining status of the callback handler, for which the loop body
does nothing. -/
inductive AgentStatus where
  | error
  | agent_action
  | llm_new_token
  | llm_end
  | agent_finish
  | other
  deriving DecidableEq, Repr

/-- The fields of one streamed event that the dialogue_page loop reads. -/
structure UIEvent where
  status : AgentStatus
  message_id : String
  text : String
  tool_name : String
  tool_input : String
  deriving DecidableEq, Repr

/-- The chat-box and Streamlit calls the dialogue_page loop body can
perform for one event.  resendRequest is listed to state that no event
ever triggers a re-send; the loop body never emits it. -/
inductive RenderAction where
  | showErrorInline (text : String)
  | updateToolCallParams (tool_name tool_input : String)
  | updateMsgStreaming (text : String) (element_index : Int)
  | updateMsgFinal (text : String) (element_index : Int)
  | completeToolExpander
  | updateFinalAnswer (text : String)
  | resendRequest
  deriving DecidableEq, Repr

/-- The loop variables of the event loop in dialogue_page (dialogue.py
lines 282-298): the accumulated text, the last message_id, and whether a
tool has been called. -/
structure LoopState where
  text : String
  message_id : String
  tool_called : Bool
  deriving DecidableEq, Repr

/-- One iteration of the dialogue_page event loop: message_id is read
from the event, element_index is 0 before any tool call and -1 after,
and the body dispatches on the status tag. -/
def processEvent (st : LoopState) (d : UIEvent) :
    LoopState × List RenderAction :=
  let message_id := d.message_id
  let element_index : Int := if !st.tool_called then 0 else -1
  match d.status with
  | .error =>
      ({ st with message_id := message_id },
        [.showErrorInline d.text])
  | .agent_action =>
      ({ st with message_id := message_id, tool_called := true, text := "" },
        [.updateToolCallParams d.tool_name d.tool_input])
  | .llm_new_token =>
      ({ st with message_id := message_id, text := st.text ++ d.text },
        [.updateMsgStreaming (st.text ++ d.text) element_index])
  | .llm_end =>
      ({ st with message_id := message_id },
        [.updateMsgFinal st.text element_index])
  | .agent_finish =>
      ({ st with message_id := message_id },
        [.completeToolExpander, .updateFinalAnswer d.text])
  | .other => ({ st with message_id := message_id }, [])

/-- The dialogue_page event loop over the whole streamed response. -/
def processEvents (st : LoopState) :
    List UIEvent → LoopState × List RenderAction
  | [] => (st, [])
  | d :: rest =>
      let r1 := processEvent st d
      let r2 := processEvents r1.1 rest
      (r2.1, r1.2 ++ r2.2)

/-- C5: the docstring of parse_command documents a stop command, but the
dispatch has no stop branch: "/stop" and "/stop 会话1" are consumed as
commands (True is returned) while the session state is unchanged and no
action — in particular no session stop — is performed. -/
theorem parse_command_stop_noop :
    parse_command "u1" "/stop" ⟨[("会话1", "id1")], "会话1", ["会话1"]⟩ =
      (true, ⟨[("会话1", "id1")], "会话1", ["会话1"]⟩, []) ∧
    parse_command "u1" "/stop 会话1"
        ⟨[("会话1", "id1")], "会话1", ["会话1"]⟩ =
      (true, ⟨[("会话1", "id1")], "会话1", ["会话1"]⟩, []) := by
  exact ⟨rfl, rfl⟩

theorem filter_key_ne_nonempty {β : Type} (l : List (String × β))
    (nm : String) (hnodup : (l.map Prod.fst).Nodup)
    (hmem : nm ∈ l.map Prod.fst) (hlen : 2 ≤ l.length) :
    l.filter (fun p => p.1 ≠ nm) ≠ [] := by
  cases l with
  | nil => simp at hlen
  | cons hd tl =>
      by_cases hk : hd.1 = nm
      · have hnm : nm ∉ tl.map Prod.fst := by
          rw [List.map_cons, List.nodup_cons] at hnodup
          exact hk ▸ hnodup.1
        have htl : tl.filter (fun p => decide (p.1 ≠ nm)) = tl := by
          apply List.filter_eq_self.mpr
          intro p hp
          simp only [decide_eq_true_eq]
          intro hpe
          exact hnm (hpe ▸ List.mem_map_of_mem Prod.fst hp)
        have htlne : tl ≠ [] := by
          intro h
          subst h
          simp at hlen
        rw [List.filter_cons, if_neg (by simp [hk]), htl]
        exact htlne
      · rw [List.filter_cons, if_pos (by simp [hk])]
        exact List.cons_ne_nil _ _

/-- C10: for a /del command on a state whose chat names agree with the
keys of the conversation_ids dict, the conversation set stays non-empty:
with exactly one chat name nothing is deleted (an error is shown), an
empty or unknown resolved name leaves the state unchanged, and in every
case the conversation_ids dict stays non-empty. -/
theorem parse_command_del_preserves_nonempty (new_uuid text : String)
    (s : UIState) (name0 : String)
    (hcmd : splitCommand text = some ("del", name0))
    (hsync : s.conv_names = s.conversation_ids.map Prod.fst)
    (hnodup : (s.conversation_ids.map Prod.fst).Nodup)
    (hne : s.conversation_ids ≠ []) :
    (parse_command new_uuid text s).2.1.conversation_ids ≠ [] ∧
    (s.conv_names.length = 1 →
      (parse_command new_uuid text s).2.1 = s) ∧
    (((if name0 = "" then s.cur_conv_name else name0) = "" ∨
        ¬ (s.conversation_ids.map Prod.fst).contains
          (if name0 = "" then s.cur_conv_name else name0)) →
      (parse_command new_uuid text s).2.1 = s) := by
  rw [parse_command, hcmd]
  simp only [reduceIte]
  by_cases h1 : s.conv_names.length = 1
  · rw [if_pos h1]
    exact ⟨hne, fun _ => rfl, fun _ => rfl⟩
  · rw [if_neg h1]
    by_cases h2 : (if name0 = "" then s.cur_conv_name else name0) = "" ∨
        ¬ (s.conversation_ids.map Prod.fst).contains
          (if name0 = "" then s.cur_conv_name else name0)
    · rw [if_pos h2]
      exact ⟨hne, fun _ => rfl, fun _ => rfl⟩
    · rw [if_neg h2]
      have h2p := h2
      push_neg at h2p
      refine ⟨?_, fun hx => absurd hx h1, fun hx => absurd hx h2⟩
      have hmem : (if name0 = "" then s.cur_conv_name else name0) ∈
          s.conversation_ids.map Prod.fst := by
        simpa using h2p.2
      have hlen2 : 2 ≤ s.conversation_ids.length := by
        have hlenmap : s.conv_names.length =
            s.conversation_ids.length := by
          rw [hsync, List.length_map]
        have hpos : 0 < s.conversation_ids.length :=
          List.length_pos.mpr hne
        omega
      exact filter_key_ne_nonempty s.conversation_ids _ hnodup hmem hlen2

/-- Witness for C10 at a concrete state: /del on the sole conversation
leaves the dict non-empty. -/
theorem parse_command_del_preserves_nonempty_witness :
    splitCommand "/del" = some ("del", "") ∧
    (parse_command "u1" "/del"
        ⟨[("a", "id1")], "a", ["a"]⟩).2.1.conversation_ids ≠ [] := by
  refine ⟨rfl, ?_⟩
  exact (parse_command_del_preserves_nonempty "u1" "/del"
    ⟨[("a", "id1")], "a", ["a"]⟩ "" rfl rfl (by simp) (by simp)).1

theorem processEvents_append (st : LoopState) (xs ys : List UIEvent) :
    processEvents st (xs ++ ys) =
      ((processEvents (processEvents st xs).1 ys).1,
        (processEvents st xs).2 ++
          (processEvents (processEvents st xs).1 ys).2) := by
  induction xs generalizing st with
  | nil => simp [processEvents]
  | cons d rest ih => simp [processEvents, ih]

theorem processEvents_no_resend (st : LoopState)
    (events : List UIEvent) :
    RenderAction.resendRequest ∉ (processEvents st events).2 := by
  induction events generalizing st with
  | nil => simp [processEvents]
  | cons d rest ih =>
      simp only [processEvents, List.mem_append, not_or]
      refine ⟨?_, ih _⟩
      cases hs : d.status <;> simp [processEvent, hs]

/-- C6: an event whose status is error contributes exactly one inline
error render of its text, after which processing continues with the
remaining events of the same response; no event ever triggers a re-send
of the request. -/
theorem dialogue_error_event_inline_no_retry (st : LoopState)
    (pre post : List UIEvent) (d : UIEvent)
    (hd : d.status = AgentStatus.error) :
    (processEvents st (pre ++ d :: post)).2 =
      (processEvents st pre).2 ++
        ([RenderAction.showErrorInline d.text] ++
          (processEvents
            { (processEvents st pre).1 with message_id := d.message_id }
            post).2) ∧
    RenderAction.resendRequest ∉
      (processEvents st (pre ++ d :: post)).2 := by
  constructor
  · rw [processEvents_append]
    have hstep : processEvent (processEvents st pre).1 d =
        ({ (processEvents st pre).1 with message_id := d.message_id },
          [RenderAction.showErrorInline d.text]) := by
      simp [processEvent, hd]
    simp [processEvents, hstep]
  · exact processEvents_no_resend _ _

/-- Witness for C6 at a concrete stream: an error event followed by a
token event renders the inline error and then the token update. -/
theorem dialogue_error_event_inline_no_retry_witness :
    (⟨AgentStatus.error, "m1", "boom", "", ""⟩ : UIEvent).status =
      AgentStatus.error ∧
    (processEvents ⟨"", "", false⟩
        ([] ++ ⟨AgentStatus.error, "m1", "boom", "", ""⟩ ::
          [⟨AgentStatus.llm_new_token, "m1", "hi", "", ""⟩])).2 =
      (processEvents ⟨"", "", false⟩ []).2 ++
        ([RenderAction.showErrorInline "boom"] ++
          (processEvents
            { (processEvents ⟨"", "", false⟩ ([] : List UIEvent)).1 with
              message_id := "m1" }
            [⟨AgentStatus.llm_new_token, "m1", "hi", "", ""⟩]).2) := by
  refine ⟨rfl, ?_⟩
  exact (dialogue_error_event_inline_no_retry ⟨"", "", false⟩ []
    [⟨AgentStatus.llm_new_token, "m1", "hi", "", ""⟩]
    ⟨AgentStatus.error, "m1", "boom", "", ""⟩ rfl).1

end Chatchat
